import Mathlib

/-!
Verification of the Passport analysis endpoint (src/api/passport/api.py).

The development shallowly embeds the handler `handle_get_analysis` together
with the helpers it calls:
- `to_checksum_address` (eth_utils): the EIP-55 checksum encoding, which
  keccak-hashes the lowercase hex address and uppercases the hex letters whose
  corresponding hash nibble is at least 8;
- `is_valid_address` (registry.api.utils, not under src/): modelled from the
  spec;
- the model-list parsing, validation guards, outbound POST, status check,
  JSON-body score extraction and response assembly of the handler itself.

The outbound HTTP call is abstracted as a function from the posted URL and
JSON body to an upstream result (network failure, or a status code plus an
optionally-JSON-parseable body), matching the boundary visible to the handler
through the requests library. Mutable process state (the endpoint map, the
diagnostic log, stdout) is threaded explicitly.
-/

/-- JSON values, as produced by parsing an upstream response body. -/
inductive Json where
  | jnull
  | jbool (b : Bool)
  | jnum (n : Int)
  | jstr (s : String)
  | jarr (xs : List Json)
  | jobj (fields : List (String × Json))

/- ## Keccak-256 (as used by eth_utils for EIP-55 checksum addresses) -/

/-- Mask selecting the low 64 bits of a lane. -/
def mask64 : Nat := 2 ^ 64 - 1

/-- Rotate a 64-bit lane left by `n` bits. -/
def rotl64 (x n : Nat) : Nat := ((x <<< n) ||| (x >>> (64 - n))) &&& mask64

/-- Read lane `i` of a Keccak state (25 lanes, row-major `x + 5 * y`). -/
def lane (st : List Nat) (i : Nat) : Nat := st.getD i 0

/-- Rotation offsets of the rho step, in the iteration order of the pi lane walk. -/
def keccakRotc : List Nat :=
  [1, 3, 6, 10, 15, 21, 28, 36, 45, 55, 2, 14,
   27, 41, 56, 8, 25, 43, 62, 18, 39, 61, 20, 44]

/-- Lane visiting order of the pi step. -/
def keccakPiln : List Nat :=
  [10, 7, 11, 17, 18, 3, 5, 16, 8, 21, 24, 4,
   15, 23, 19, 13, 12, 2, 20, 14, 22, 9, 6, 1]

/-- Round constants of the iota step. -/
def keccakRC : List Nat :=
  [0x0000000000000001, 0x0000000000008082, 0x800000000000808a, 0x8000000080008000,
   0x000000000000808b, 0x0000000080000001, 0x8000000080008081, 0x8000000000008009,
   0x000000000000008a, 0x0000000000000088, 0x0000000080008009, 0x000000008000000a,
   0x000000008000808b, 0x800000000000008b, 0x8000000000008089, 0x8000000000008003,
   0x8000000000008002, 0x8000000000000080, 0x000000000000800a, 0x800000008000000a,
   0x8000000080008081, 0x8000000000008080, 0x0000000080000001, 0x8000000080008008]

/-- Theta step: xor every lane with the parity of two neighbouring columns. -/
def keccakTheta (st : List Nat) : List Nat :=
  let bc := (List.range 5).map fun i =>
    lane st i ^^^ lane st (i + 5) ^^^ lane st (i + 10) ^^^
      lane st (i + 15) ^^^ lane st (i + 20)
  (List.range 25).map fun k =>
    let i := k % 5
    lane st k ^^^ (lane bc ((i + 4) % 5) ^^^ rotl64 (lane bc ((i + 1) % 5)) 1)

/-- Combined rho and pi steps: walk the pi permutation, rotating each lane. -/
def keccakRhoPi (st : List Nat) : List Nat :=
  ((keccakPiln.zip keccakRotc).foldl
      (fun acc p => (acc.1.set p.1 (rotl64 acc.2 p.2), lane acc.1 p.1))
      (st, lane st 1)).1

/-- Chi step: nonlinear mix within each row of five lanes. -/
def keccakChi (st : List Nat) : List Nat :=
  (List.range 25).map fun k =>
    let j := 5 * (k / 5)
    let i := k % 5
    lane st k ^^^ ((lane st (j + (i + 1) % 5) ^^^ mask64) &&& lane st (j + (i + 2) % 5))

/-- One Keccak-f round followed by the iota round-constant xor. -/
def keccakRound (st : List Nat) (rc : Nat) : List Nat :=
  let st2 := keccakChi (keccakRhoPi (keccakTheta st))
  st2.set 0 (lane st2 0 ^^^ rc)

/-- The full Keccak-f[1600] permutation, 24 rounds. -/
def keccakF (st : List Nat) : List Nat := keccakRC.foldl keccakRound st

/-- Interpret a byte list as a little-endian natural number. -/
def littleEndianNat (bs : List Nat) : Nat := bs.foldr (fun b acc => acc * 256 + b) 0

/-- Keccak (pre-SHA-3) multi-rate padding: append 0x01, zero fill, set the top
bit of the final byte of the block. -/
def padKeccak (msg : List Nat) (rate : Nat) : List Nat :=
  let padLen := rate - msg.length % rate
  if padLen == 1 then msg ++ [0x81]
  else msg ++ [0x01] ++ List.replicate (padLen - 2) 0 ++ [0x80]

/-- Absorb one 136-byte block into the state and permute. -/
def absorbBlock (st : List Nat) (block : List Nat) : List Nat :=
  let lanes := (List.range 17).map fun i => littleEndianNat ((block.drop (8 * i)).take 8)
  keccakF ((List.range 25).map fun i => lane st i ^^^ lanes.getD i 0)

/-- Keccak-256 digest (32 bytes) of a byte message. -/
def keccak256Bytes (msg : List Nat) : List Nat :=
  let blocks := List.toChunks 136 (padKeccak msg 136)
  let st := blocks.foldl absorbBlock (List.replicate 25 0)
  (List.range 32).map fun i => (lane st (i / 8) >>> (8 * (i % 8))) &&& 255

/-- High and low nibbles of each byte, in hex-digest order. -/
def byteNibbles (bs : List Nat) : List Nat := bs.flatMap fun b => [b / 16, b % 16]

/- ## EIP-55 checksum address (eth_utils.to_checksum_address) -/

/-- Drop a leading "0x", as eth_utils does after lowercasing. -/
def remove0x : List Char → List Char
  | '0' :: 'x' :: rest => rest
  | cs => cs

/-- Uppercase each address character whose digest nibble exceeds 7. -/
def checksumCase : List Char → List Nat → List Char
  | [], _ => []
  | c :: cs, [] => c :: checksumCase cs []
  | c :: cs, n :: ns => (if n > 7 then c.toUpper else c) :: checksumCase cs ns

/-- EIP-55 checksum encoding of a hex address, after the eth_utils
`to_checksum_address`: lowercase the input, drop the "0x" prefix,
keccak-hash the 40 ASCII hex characters, and uppercase exactly the
characters whose corresponding digest nibble is greater than 7. -/
def to_checksum_address (address : String) : String :=
  let low := address.data.map Char.toLower
  let hexPart := remove0x low
  let hashNibs := byteNibbles (keccak256Bytes (hexPart.map Char.toNat))
  String.mk ('0' :: 'x' :: checksumCase hexPart hashNibs)

/-- Hexadecimal digit test. -/
def isHexChar (c : Char) : Bool :=
  c.isDigit || ('a' ≤ c && c ≤ 'f') || ('A' ≤ c && c ≤ 'F')

/-- Modelled from the spec: `is_valid_address` from registry.api.utils is not
under src/. Per spec sections 4.1 and 8, an address is syntactically valid when
it is a well-formed hex address of the fixed length (40 hex digits, optional
"0x" prefix) that is either all lowercase or in canonical checksum mixed case. -/
def is_valid_address (address : String) : Bool :=
  let hexPart := remove0x address.data
  hexPart.length == 40 && hexPart.all isHexChar &&
    (hexPart.all (fun c => !c.isUpper) || address == to_checksum_address address)

/- ## Data model of the handler -/

/-- Process settings supplying the three model endpoint URLs (django settings). -/
structure Settings where
  ETHEREUM_MODEL_ENDPOINT : String
  NFT_MODEL_ENDPOINT : String
  ZKSYNC_MODEL_ENDPOINT : String

/-- The module-level endpoint map, built once from settings at import time. -/
def MODEL_ENDPOINTS (settings : Settings) : List (String × String) :=
  [("ethereum", settings.ETHEREUM_MODEL_ENDPOINT),
   ("nft", settings.NFT_MODEL_ENDPOINT),
   ("zksync", settings.ZKSYNC_MODEL_ENDPOINT)]

/-- Process-wide mutable state visible to the handler: the endpoint map
(module global), the diagnostic log written by log.error, and the bodies
written to stdout by the print call. -/
structure ProgState where
  modelEndpoints : List (String × String)
  logLines : List String
  stdoutBodies : List Json

/-- The HTTP request issued by requests.post, as visible on the wire. -/
structure OutboundRequest where
  url : String
  body : Json
  headers : List (String × String)

/-- What the handler can observe of one outbound call: a raised network-level
error, or a final response with a status code and a body that either parses
as JSON or does not (`none`). -/
inductive UpstreamResult where
  | networkError
  | response (status : Nat) (body : Option Json)

/-- The three exception classes the handler can raise: InvalidAddressException
(registry.exceptions), BadModelNameError and PassportAnalysisError with their
detail strings. -/
inductive AnalysisError where
  | invalidAddressException
  | badModelNameError (detail : String)
  | passportAnalysisError (detail : String)

/-- Outward HTTP status of each error class. BadModelNameError and
PassportAnalysisError carry status_code 400 and 500 in src/api/passport/api.py;
the 400 of InvalidAddressException is modelled from the spec, since
registry.exceptions is not under src/. -/
def AnalysisError.statusCode : AnalysisError → Nat
  | .invalidAddressException => 400
  | .badModelNameError _ => 400
  | .passportAnalysisError _ => 500

/-- Whether an error is a BadModelNameError. -/
def AnalysisError.isBadModelName : AnalysisError → Bool
  | .badModelNameError _ => true
  | _ => false

/-- The models field of the response: one optional entry per known model,
holding the dict assigned by setattr (a JSON object with a "score" key). -/
structure PassportAnalysisDetailsModels where
  ethereum : Option Json
  nft : Option Json
  zksync : Option Json

/-- The details field of the response. -/
structure PassportAnalysisDetails where
  models : PassportAnalysisDetailsModels

/-- The 200 response schema. -/
structure PassportAnalysisResponse where
  address : String
  details : PassportAnalysisDetails

/-- Everything one call of the handler produces: appended log lines, bodies
printed to stdout, outbound requests issued, and the outcome (a response or a
raised error). -/
structure RunResult where
  logLines : List String
  stdoutBodies : List Json
  requests : List OutboundRequest
  outcome : Except AnalysisError PassportAnalysisResponse

/- ## The handler, stage by stage -/

/-- Python str.split on a comma: always at least one (possibly empty) piece. -/
def splitOnComma : List Char → List (List Char)
  | [] => [[]]
  | c :: rest =>
    let r := splitOnComma rest
    if c = ',' then [] :: r
    else
      match r with
      | [] => [[c]]
      | piece :: pieces => (c :: piece) :: pieces

/-- Python str.strip with no argument: remove leading and trailing whitespace. -/
def pyStrip (cs : List Char) : List Char :=
  ((cs.dropWhile Char.isWhitespace).reverse.dropWhile Char.isWhitespace).reverse

/-- Line 92: models = [model.strip() for model in model_list.split(",")]. -/
def parse_model_list (model_list : String) : List String :=
  (splitOnComma model_list.data).map fun cs => String.mk (pyStrip cs)

/-- The constant detail of PassportAnalysisError (its default_detail). -/
def analysisErrorDetail : String := "Error retrieving Passport analysis"

/-- A run that raised PassportAnalysisError after logging, issuing the one
request, and printing the bodies it managed to parse. -/
def failedDispatch (req : OutboundRequest) (printed : List Json) : RunResult :=
  { logLines := [analysisErrorDetail], stdoutBodies := printed,
    requests := [req], outcome := .error (.passportAnalysisError analysisErrorDetail) }

/-- Line 130: response_body.get("data", \x7b\x7d).get("human_probability", 0).
Python dict.get exists only on dicts, so a non-object body, or a "data" member
that is present but not an object, raises AttributeError (`Except.error`);
a missing key at either level defaults the score to 0. -/
def pyGetScore : Json → Except Unit Json
  | .jobj fields =>
    match fields.lookup "data" with
    | none => .ok (.jnum 0)
    | some (.jobj f2) =>
      match f2.lookup "human_probability" with
      | none => .ok (.jnum 0)
      | some v => .ok v
    | some _ => .error ()
  | _ => .error ()

/-- Lines 134-136: setattr(model_results, model_name, ...score dict...). -/
def setattrModel (m : PassportAnalysisDetailsModels) (name : String) (value : Json) :
    PassportAnalysisDetailsModels :=
  if name = "ethereum" then { m with ethereum := some value }
  else if name = "nft" then { m with nft := some value }
  else if name = "zksync" then { m with zksync := some value }
  else m

/-- Lines 111-147: compute the checksum address, POST it to the model
endpoint, raise_for_status (which raises exactly for statuses in 400..599),
parse the JSON body, print it, extract the score, and assemble the response;
any exception inside the try block becomes PassportAnalysisError. -/
def handle_dispatch (endpoints : List (String × String))
    (upstream : String → Json → UpstreamResult)
    (address : String) (model : String) : RunResult :=
  let checksum_address := to_checksum_address address
  let url := (endpoints.lookup model).getD ""
  let postBody := Json.jobj [("address", Json.jstr checksum_address)]
  let req : OutboundRequest :=
    { url := url, body := postBody,
      headers := [("Content-Type", "application/json"), ("Accept", "application/json")] }
  match upstream url postBody with
  | .networkError => failedDispatch req []
  | .response status body =>
    if 400 ≤ status ∧ status < 600 then failedDispatch req []
    else
      match body with
      | none => failedDispatch req []
      | some response_body =>
        match pyGetScore response_body with
        | .error _ => failedDispatch req [response_body]
        | .ok score =>
          let scores := [(model, score)]
          let model_results := scores.foldl
            (fun acc p => setattrModel acc p.1 (Json.jobj [("score", p.2)]))
            { ethereum := none, nft := none, zksync := none }
          { logLines := [], stdoutBodies := [response_body], requests := [req],
            outcome := .ok { address := address, details := { models := model_results } } }

/-- A run that raised a validation error before any outbound call. -/
def validationFailure (e : AnalysisError) : RunResult :=
  { logLines := [], stdoutBodies := [], requests := [], outcome := .error e }

/-- Lines 97-109: the model-name guards, in source order: more than one name,
then no name, then unknown names (at this point models is a singleton, so the
set difference of line 105 is just the filter of that one name). -/
def handle_models_stage (endpoints : List (String × String))
    (upstream : String → Json → UpstreamResult)
    (address : String) (models : List String) : RunResult :=
  if models.length > 1 then
    validationFailure (.badModelNameError "Currently, only one model name can be provided at a time")
  else if models.length = 0 ∨ models.headD "" = "" then
    validationFailure (.badModelNameError "No model names provided")
  else
    let bad_models := models.filter fun m => !((endpoints.map Prod.fst).contains m)
    if bad_models ≠ [] then
      validationFailure (.badModelNameError
        ("Invalid model name(s): " ++ ", ".intercalate bad_models ++
         ". Must be one of " ++ ", ".intercalate (endpoints.map Prod.fst)))
    else handle_dispatch endpoints upstream address (models.headD "")

/-- Lines 91-147 without the state plumbing: parse the model list, check the
address, then run the model guards and the dispatch. -/
def handle_core (endpoints : List (String × String))
    (upstream : String → Json → UpstreamResult)
    (address : String) (model_list : String) : RunResult :=
  let models := parse_model_list model_list
  if is_valid_address address = false then
    validationFailure .invalidAddressException
  else handle_models_stage endpoints upstream address models

/-- The handler handle_get_analysis of src/api/passport/api.py: one call reads
the endpoint map from the process state and appends its log lines and printed
bodies to it. -/
def handle_get_analysis (s : ProgState)
    (upstream : String → Json → UpstreamResult)
    (address : String) (model_list : String) : ProgState × RunResult :=
  let r := handle_core s.modelEndpoints upstream address model_list
  ({ s with logLines := s.logLines ++ r.logLines,
            stdoutBodies := s.stdoutBodies ++ r.stdoutBodies }, r)

/- ## Concrete instances used by closed theorems -/

/-- A concrete settings value for closed evaluations. -/
def exampleSettings : Settings :=
  { ETHEREUM_MODEL_ENDPOINT := "https://ethereum.model.example"
    NFT_MODEL_ENDPOINT := "https://nft.model.example"
    ZKSYNC_MODEL_ENDPOINT := "https://zksync.model.example" }

/-- The process state right after startup, with an empty log. -/
def exampleState : ProgState :=
  { modelEndpoints := MODEL_ENDPOINTS exampleSettings, logLines := [], stdoutBodies := [] }

/- ## Theorems -/

/-- The split of a comma list always has at least one piece, exactly as the
Python str.split. -/
theorem splitOnComma_ne_nil (cs : List Char) : splitOnComma cs ≠ [] := by
  induction cs with
  | nil => simp [splitOnComma]
  | cons c rest ih =>
    simp only [splitOnComma]
    split
    · simp
    · cases h : splitOnComma rest with
      | nil => simp
      | cons piece pieces => simp

/-- A parsed model list is never empty. -/
theorem parse_model_list_ne_nil (model_list : String) :
    parse_model_list model_list ≠ [] := by
  unfold parse_model_list
  simpa using splitOnComma_ne_nil model_list.data

/-- C10: the len(models) == 0 branch of line 102 is unreachable — splitting
any model_list on "," and trimming yields at least one element — so the
"No model names provided" guard is decided solely by whether the first
element is the empty string. -/
theorem c10_empty_branch_unreachable (model_list : String) :
    parse_model_list model_list ≠ [] ∧
    (((parse_model_list model_list).length = 0 ∨
        (parse_model_list model_list).headD "" = "") ↔
      (parse_model_list model_list).headD "" = "") := by
  refine ⟨parse_model_list_ne_nil model_list, ?_, Or.inr⟩
  rintro (h0 | h1)
  · exact absurd (List.length_eq_zero.mp h0) (parse_model_list_ne_nil model_list)
  · exact h1

/-- C8: handling a request never changes the endpoint map: the state after
the call carries the same modelEndpoints as the state before it, on every
path. -/
theorem c8_model_endpoints_never_mutated
    (s : ProgState) (upstream : String → Json → UpstreamResult)
    (address model_list : String) :
    (handle_get_analysis s upstream address model_list).1.modelEndpoints =
      s.modelEndpoints := rfl

/-- C7: repeating an identical request against the same deterministic upstream
from the state the first call left behind produces the identical run — the
same outcome, the same outbound requests, the same appended log lines. -/
theorem c7_identical_rerun_identical_outcome
    (s : ProgState) (upstream : String → Json → UpstreamResult)
    (address model_list : String) :
    (handle_get_analysis (handle_get_analysis s upstream address model_list).1
        upstream address model_list).2 =
      (handle_get_analysis s upstream address model_list).2 := rfl

/-- C4: a syntactically invalid address makes the handler raise
InvalidAddressException (outward status 400) without issuing any outbound
request. -/
theorem c4_invalid_address_means_no_outbound_call
    (s : ProgState) (upstream : String → Json → UpstreamResult)
    (address model_list : String)
    (h : is_valid_address address = false) :
    (handle_get_analysis s upstream address model_list).2.outcome =
        Except.error .invalidAddressException ∧
    (handle_get_analysis s upstream address model_list).2.requests = [] ∧
    AnalysisError.invalidAddressException.statusCode = 400 := by
  refine ⟨?_, ?_, rfl⟩ <;>
    simp [handle_get_analysis, handle_core, h, validationFailure]

/-- Witness for C4 at the concrete invalid address "notanaddress". -/
theorem c4_witness :
    is_valid_address "notanaddress" = false ∧
    (handle_get_analysis exampleState (fun _ _ => .networkError)
        "notanaddress" "ethereum").2.outcome = Except.error .invalidAddressException ∧
    (handle_get_analysis exampleState (fun _ _ => .networkError)
        "notanaddress" "ethereum").2.requests = [] :=
  ⟨by decide,
   (c4_invalid_address_means_no_outbound_call exampleState (fun _ _ => .networkError)
      "notanaddress" "ethereum" (by decide)).1,
   (c4_invalid_address_means_no_outbound_call exampleState (fun _ _ => .networkError)
      "notanaddress" "ethereum" (by decide)).2.1⟩

/-- C2 (amended): address validity is checked before model-name structure:
for every request whose address is invalid — even when the model_list is also
malformed (several names, or an empty sole name) — the raised error is
InvalidAddressException, which is not a BadModelNameError. -/
theorem c2_address_checked_before_model_structure
    (s : ProgState) (upstream : String → Json → UpstreamResult)
    (address model_list : String)
    (ha : is_valid_address address = false)
    (hm : 1 < (parse_model_list model_list).length ∨
          (parse_model_list model_list).headD "" = "") :
    (handle_get_analysis s upstream address model_list).2.outcome =
        Except.error .invalidAddressException ∧
    AnalysisError.invalidAddressException.isBadModelName = false := by
  refine ⟨?_, rfl⟩
  simp [handle_get_analysis, handle_core, ha, validationFailure]

/-- Counterexample to C2 as stated: address "zzz" is invalid and "a,b" holds
two model names, yet the handler raises InvalidAddressException — not the
BadModelNameError the claim predicts. -/
theorem c2_counterexample :
    1 < (parse_model_list "a,b").length ∧
    is_valid_address "zzz" = false ∧
    (handle_get_analysis exampleState (fun _ _ => .networkError) "zzz" "a,b").2.outcome =
        Except.error .invalidAddressException ∧
    AnalysisError.invalidAddressException.isBadModelName = false :=
  ⟨by decide, by decide, rfl, rfl⟩

/-- Witness for C2 (amended) at address "bogus" and model_list ",". -/
theorem c2_witness :
    (handle_get_analysis exampleState (fun _ _ => .networkError) "bogus" ",").2.outcome =
        Except.error .invalidAddressException ∧
    AnalysisError.invalidAddressException.isBadModelName = false :=
  c2_address_checked_before_model_structure exampleState (fun _ _ => .networkError)
    "bogus" "," (by decide) (Or.inl (by decide))

/-- C6: with a valid address, model_list "" and model_list " " both raise
BadModelNameError (outward status 400) with detail "No model names provided". -/
theorem c6_empty_model_list_no_models_provided
    (s : ProgState) (upstream : String → Json → UpstreamResult) (address : String)
    (ha : is_valid_address address = true) :
    (handle_get_analysis s upstream address "").2.outcome =
        Except.error (.badModelNameError "No model names provided") ∧
    (handle_get_analysis s upstream address " ").2.outcome =
        Except.error (.badModelNameError "No model names provided") ∧
    (AnalysisError.badModelNameError "No model names provided").statusCode = 400 := by
  have h1 : parse_model_list "" = [""] := rfl
  have h2 : parse_model_list " " = [""] := rfl
  refine ⟨?_, ?_, rfl⟩ <;>
    simp [handle_get_analysis, handle_core, handle_models_stage, ha, h1, h2,
      validationFailure]

/-- Witness for C6 at a concrete valid address. -/
theorem c6_witness :
    (handle_get_analysis exampleState (fun _ _ => .networkError)
        "0x1111111111111111111111111111111111111111" "").2.outcome =
      Except.error (.badModelNameError "No model names provided") ∧
    (handle_get_analysis exampleState (fun _ _ => .networkError)
        "0x1111111111111111111111111111111111111111" " ").2.outcome =
      Except.error (.badModelNameError "No model names provided") :=
  ⟨(c6_empty_model_list_no_models_provided exampleState (fun _ _ => .networkError)
      "0x1111111111111111111111111111111111111111" (by decide)).1,
   (c6_empty_model_list_no_models_provided exampleState (fun _ _ => .networkError)
      "0x1111111111111111111111111111111111111111" (by decide)).2.1⟩

/-- C9: when the parsed model list has two or more elements, all empty after
trimming, the handler raises the several-names BadModelNameError — the
multiplicity check of line 97 fires before the emptiness check of line 102. -/
theorem c9_multiplicity_checked_before_emptiness
    (s : ProgState) (upstream : String → Json → UpstreamResult)
    (address model_list : String)
    (ha : is_valid_address address = true)
    (hlen : 1 < (parse_model_list model_list).length)
    (hall : ∀ m ∈ parse_model_list model_list, m = "") :
    (handle_get_analysis s upstream address model_list).2.outcome =
      Except.error (.badModelNameError
        "Currently, only one model name can be provided at a time") := by
  simp only [handle_get_analysis, handle_core, ha, Bool.true_eq_false, if_false,
    handle_models_stage, if_pos hlen]
  rfl

/-- Witness for C9 at model_list ",", which parses to two empty names. -/
theorem c9_witness :
    (handle_get_analysis exampleState (fun _ _ => .networkError)
        "0x1111111111111111111111111111111111111111" ",").2.outcome =
      Except.error (.badModelNameError
        "Currently, only one model name can be provided at a time") :=
  c9_multiplicity_checked_before_emptiness exampleState (fun _ _ => .networkError)
    "0x1111111111111111111111111111111111111111" "," (by decide) (by decide)
    (by decide)

/-- Passing validation with a single known model name reaches the dispatch
stage unchanged. -/
theorem handle_core_reaches_dispatch
    (endpoints : List (String × String)) (upstream : String → Json → UpstreamResult)
    (address model_list name : String)
    (ha : is_valid_address address = true)
    (hp : parse_model_list model_list = [name])
    (hn : name ≠ "")
    (hk : name ∈ endpoints.map Prod.fst) :
    handle_core endpoints upstream address model_list =
      handle_dispatch endpoints upstream address name := by
  simp [handle_core, handle_models_stage, ha, hp, hn, hk, List.filter]

/-- The dispatch stage issues exactly one request, to the resolved endpoint,
whose JSON body holds the checksum address, on every branch. -/
theorem handle_dispatch_requests
    (endpoints : List (String × String)) (upstream : String → Json → UpstreamResult)
    (address name url : String)
    (hu : endpoints.lookup name = some url) :
    (handle_dispatch endpoints upstream address name).requests =
      [{ url := url,
         body := Json.jobj [("address", Json.jstr (to_checksum_address address))],
         headers := [("Content-Type", "application/json"), ("Accept", "application/json")] }] := by
  unfold handle_dispatch
  simp only [hu, Option.getD_some]
  cases upstream url (Json.jobj [("address", Json.jstr (to_checksum_address address))]) with
  | networkError => rfl
  | response status body =>
    dsimp only
    split
    · rfl
    · cases body with
      | none => rfl
      | some rb =>
        dsimp only
        cases h : pyGetScore rb with
        | error e => rfl
        | ok score => rfl

/-- Whenever the dispatch stage returns a success, the address field of the
response is the address argument as given. -/
theorem handle_dispatch_echoes_address
    (endpoints : List (String × String)) (upstream : String → Json → UpstreamResult)
    (address name : String) :
    (handle_dispatch endpoints upstream address name).outcome.map
        PassportAnalysisResponse.address =
      (handle_dispatch endpoints upstream address name).outcome.map
        (fun _ => address) := by
  simp only [handle_dispatch]
  cases upstream ((endpoints.lookup name).getD "")
      (Json.jobj [("address", Json.jstr (to_checksum_address address))]) with
  | networkError => rfl
  | response status body =>
    dsimp only
    split
    · rfl
    · cases body with
      | none => rfl
      | some rb =>
        dsimp only
        cases h : pyGetScore rb with
        | error e => rfl
        | ok score => rfl

/-- C1 (amended): for a valid address and a single known model name, the one
outbound request carries the checksum-cased address in its JSON body, while a
successful response echoes the address exactly as the caller supplied it —
not the checksum form. -/
theorem c1_checksum_in_post_raw_address_echoed
    (s : ProgState) (upstream : String → Json → UpstreamResult)
    (address model_list name url : String)
    (ha : is_valid_address address = true)
    (hp : parse_model_list model_list = [name])
    (hn : name ≠ "")
    (hk : name ∈ s.modelEndpoints.map Prod.fst)
    (hu : s.modelEndpoints.lookup name = some url) :
    (handle_get_analysis s upstream address model_list).2.requests =
      [{ url := url,
         body := Json.jobj [("address", Json.jstr (to_checksum_address address))],
         headers := [("Content-Type", "application/json"), ("Accept", "application/json")] }] ∧
    (handle_get_analysis s upstream address model_list).2.outcome.map
        PassportAnalysisResponse.address =
      (handle_get_analysis s upstream address model_list).2.outcome.map
        (fun _ => address) := by
  have hcd := handle_core_reaches_dispatch s.modelEndpoints upstream address model_list
    name ha hp hn hk
  constructor
  · show (handle_core s.modelEndpoints upstream address model_list).requests = _
    rw [hcd]
    exact handle_dispatch_requests s.modelEndpoints upstream address name url hu
  · show (handle_core s.modelEndpoints upstream address model_list).outcome.map
        PassportAnalysisResponse.address =
      (handle_core s.modelEndpoints upstream address model_list).outcome.map
        (fun _ => address)
    rw [hcd]
    exact handle_dispatch_echoes_address s.modelEndpoints upstream address name

/-- Witness for C1 (amended) at a concrete valid address and model. -/
theorem c1_witness :
    (handle_get_analysis exampleState
        (fun _ _ => .response 200 (some (Json.jobj
          [("data", Json.jobj [("human_probability", Json.jnum 42)])])))
        "0x1111111111111111111111111111111111111111" "ethereum").2.requests =
      [{ url := "https://ethereum.model.example",
         body := Json.jobj [("address",
           Json.jstr (to_checksum_address "0x1111111111111111111111111111111111111111"))],
         headers := [("Content-Type", "application/json"), ("Accept", "application/json")] }] ∧
    (handle_get_analysis exampleState
        (fun _ _ => .response 200 (some (Json.jobj
          [("data", Json.jobj [("human_probability", Json.jnum 42)])])))
        "0x1111111111111111111111111111111111111111" "ethereum").2.outcome.map
        PassportAnalysisResponse.address =
      (handle_get_analysis exampleState
        (fun _ _ => .response 200 (some (Json.jobj
          [("data", Json.jobj [("human_probability", Json.jnum 42)])])))
        "0x1111111111111111111111111111111111111111" "ethereum").2.outcome.map
        (fun _ => "0x1111111111111111111111111111111111111111") :=
  c1_checksum_in_post_raw_address_echoed exampleState
    (fun _ _ => .response 200 (some (Json.jobj
      [("data", Json.jobj [("human_probability", Json.jnum 42)])])))
    "0x1111111111111111111111111111111111111111" "ethereum" "ethereum"
    "https://ethereum.model.example" (by decide) rfl (by decide) (by decide) rfl

set_option maxRecDepth 100000 in
/-- Counterexample to C1 as stated, at the lowercase form of the first EIP-55
reference address: the outbound POST body carries the checksum-cased form,
but the success response echoes the lowercase input, which differs from it. -/
theorem c1_counterexample :
    (handle_get_analysis exampleState
        (fun _ _ => .response 200 (some (Json.jobj
          [("data", Json.jobj [("human_probability", Json.jnum 50)])])))
        "0x5aaeb6053f3e94c9b9a09f33669435e7ef1beaed" "ethereum").2.requests =
      [{ url := "https://ethereum.model.example",
         body := Json.jobj [("address", Json.jstr "0x5aAeb6053F3E94C9b9A09f33669435E7Ef1BeAed")],
         headers := [("Content-Type", "application/json"), ("Accept", "application/json")] }] ∧
    (handle_get_analysis exampleState
        (fun _ _ => .response 200 (some (Json.jobj
          [("data", Json.jobj [("human_probability", Json.jnum 50)])])))
        "0x5aaeb6053f3e94c9b9a09f33669435e7ef1beaed" "ethereum").2.outcome =
      Except.ok
        { address := "0x5aaeb6053f3e94c9b9a09f33669435e7ef1beaed",
          details := { models :=
            { ethereum := some (Json.jobj [("score", Json.jnum 50)]),
              nft := none, zksync := none } } } ∧
    "0x5aaeb6053f3e94c9b9a09f33669435e7ef1beaed" ≠
      "0x5aAeb6053F3E94C9b9A09f33669435E7Ef1BeAed" :=
  ⟨rfl, rfl, by decide⟩

/-- C3 (amended): an upstream 2xx response whose JSON body is an object in
which "data" is absent, or maps to an object lacking the key
"human_probability", yields a success with score 0 for the requested model.
(Bodies of other shapes — a non-object body, or a "data" member that is not
an object — instead fail the request; see the counterexample.) -/
theorem c3_absent_score_path_defaults_to_zero
    (s : ProgState) (upstream : String → Json → UpstreamResult)
    (address model_list name url : String) (status : Nat)
    (fields : List (String × Json))
    (ha : is_valid_address address = true)
    (hp : parse_model_list model_list = [name])
    (hn : name ≠ "")
    (hk : name ∈ s.modelEndpoints.map Prod.fst)
    (hu : s.modelEndpoints.lookup name = some url)
    (hr : upstream url (Json.jobj [("address", Json.jstr (to_checksum_address address))]) =
        .response status (some (Json.jobj fields)))
    (hs : 200 ≤ status ∧ status < 300)
    (hd : fields.lookup "data" = none ∨
          ∃ f2, fields.lookup "data" = some (Json.jobj f2) ∧
            f2.lookup "human_probability" = none) :
    (handle_get_analysis s upstream address model_list).2.outcome =
      Except.ok
        { address := address,
          details := { models :=
            (setattrModel { ethereum := none, nft := none, zksync := none }
              name (Json.jobj [("score", Json.jnum 0)])) } } := by
  have hcd := handle_core_reaches_dispatch s.modelEndpoints upstream address model_list
    name ha hp hn hk
  have hscore : pyGetScore (Json.jobj fields) = .ok (Json.jnum 0) := by
    rcases hd with h | ⟨f2, hf2, hhp⟩
    · simp [pyGetScore, h]
    · simp [pyGetScore, hf2, hhp]
  show (handle_core s.modelEndpoints upstream address model_list).outcome = _
  rw [hcd]
  simp only [handle_dispatch, hu, Option.getD_some, hr]
  rw [if_neg (by omega)]
  simp [hscore]

/-- Witness for C3 (amended): a 200 response with body equal to the empty
JSON object yields a success with score 0 for the requested model. -/
theorem c3_witness :
    (handle_get_analysis exampleState (fun _ _ => .response 200 (some (Json.jobj [])))
        "0x1111111111111111111111111111111111111111" "ethereum").2.outcome =
      Except.ok
        { address := "0x1111111111111111111111111111111111111111",
          details := { models :=
            (setattrModel { ethereum := none, nft := none, zksync := none }
              "ethereum" (Json.jobj [("score", Json.jnum 0)])) } } :=
  c3_absent_score_path_defaults_to_zero exampleState
    (fun _ _ => .response 200 (some (Json.jobj [])))
    "0x1111111111111111111111111111111111111111" "ethereum" "ethereum"
    "https://ethereum.model.example" 200 [] (by decide) rfl (by decide) (by decide)
    rfl rfl ⟨by decide, by decide⟩ (Or.inl rfl)

/-- Counterexample to C3 as stated: a 200 response whose JSON body is the
object with "data" mapping to the number 5 contains no number at the path
data.human_probability, yet the request fails with the generic
PassportAnalysisError instead of succeeding with score 0 — the dict.get
chain of line 130 raises AttributeError on the non-dict "data" value. -/
theorem c3_counterexample :
    (handle_get_analysis exampleState
        (fun _ _ => .response 200 (some (Json.jobj [("data", Json.jnum 5)])))
        "0x1111111111111111111111111111111111111111" "ethereum").2.outcome =
      Except.error (.passportAnalysisError "Error retrieving Passport analysis") ∧
    pyGetScore (Json.jobj [("data", Json.jnum 5)]) = .error () ∧
    (200 ≤ 200 ∧ 200 < 300) :=
  ⟨rfl, rfl, by decide⟩

/-- C5 (amended): every failure of the dispatch stage — a network error, an
upstream status in 400..599 (exactly the statuses raise_for_status raises
for), or a body that fails JSON parsing — fails the request with the one
generic PassportAnalysisError: outward status 500, detail
"Error retrieving Passport analysis", identical for every cause and carrying
no upstream status, body or exception information. (Statuses outside
400..599 are not failures; see the counterexample for 303.) -/
theorem c5_dispatch_failures_all_generic_500
    (s : ProgState) (upstream : String → Json → UpstreamResult)
    (address model_list name url : String)
    (ha : is_valid_address address = true)
    (hp : parse_model_list model_list = [name])
    (hn : name ≠ "")
    (hk : name ∈ s.modelEndpoints.map Prod.fst)
    (hu : s.modelEndpoints.lookup name = some url)
    (hcause :
      upstream url (Json.jobj [("address", Json.jstr (to_checksum_address address))]) =
          .networkError ∨
      (∃ status body,
        upstream url (Json.jobj [("address", Json.jstr (to_checksum_address address))]) =
          .response status body ∧ 400 ≤ status ∧ status < 600) ∨
      (∃ status,
        upstream url (Json.jobj [("address", Json.jstr (to_checksum_address address))]) =
          .response status none)) :
    (handle_get_analysis s upstream address model_list).2.outcome =
      Except.error (.passportAnalysisError analysisErrorDetail) ∧
    (AnalysisError.passportAnalysisError analysisErrorDetail).statusCode = 500 ∧
    analysisErrorDetail = "Error retrieving Passport analysis" := by
  refine ⟨?_, rfl, rfl⟩
  have hcd := handle_core_reaches_dispatch s.modelEndpoints upstream address model_list
    name ha hp hn hk
  show (handle_core s.modelEndpoints upstream address model_list).outcome = _
  rw [hcd]
  rcases hcause with h | ⟨status, body, h, h4, h6⟩ | ⟨status, h⟩
  · simp [handle_dispatch, hu, h, failedDispatch]
  · simp only [handle_dispatch, hu, Option.getD_some, h]
    rw [if_pos ⟨h4, h6⟩]
    rfl
  · simp only [handle_dispatch, hu, Option.getD_some, h]
    split
    · rfl
    · rfl

/-- Witness for C5 (amended) with a network-level failure. -/
theorem c5_witness :
    (handle_get_analysis exampleState (fun _ _ => .networkError)
        "0x1111111111111111111111111111111111111111" "ethereum").2.outcome =
      Except.error (.passportAnalysisError analysisErrorDetail) ∧
    (AnalysisError.passportAnalysisError analysisErrorDetail).statusCode = 500 ∧
    analysisErrorDetail = "Error retrieving Passport analysis" :=
  c5_dispatch_failures_all_generic_500 exampleState (fun _ _ => .networkError)
    "0x1111111111111111111111111111111111111111" "ethereum" "ethereum"
    "https://ethereum.model.example" (by decide) rfl (by decide) (by decide) rfl
    (Or.inl rfl)

/-- Counterexample to C5 as stated: 303 is a non-success HTTP status, yet
with a well-formed body the request succeeds — raise_for_status only raises
for statuses in 400..599, so a 3xx final response is not a failure. -/
theorem c5_counterexample :
    (handle_get_analysis exampleState
        (fun _ _ => .response 303 (some (Json.jobj
          [("data", Json.jobj [("human_probability", Json.jnum 7)])])))
        "0x1111111111111111111111111111111111111111" "ethereum").2.outcome =
      Except.ok
        { address := "0x1111111111111111111111111111111111111111",
          details := { models :=
            { ethereum := some (Json.jobj [("score", Json.jnum 7)]),
              nft := none, zksync := none } } } ∧
    ¬(200 ≤ 303 ∧ 303 < 300) :=
  ⟨rfl, by decide⟩
